import Mathlib

/-!
# Session coordinator of `UPuzzlePlatformsGameInstance`

A shallow embedding of the session operations and completion callbacks of
`PuzzlePlatformsGameInstance.cpp`.

* The game instance is a record of its nullable members (`SessionInterface`,
  `SessionSearch`, `Menu`) together with the nullable engine objects its
  methods ask for (`GetEngine()`, `GetWorld()`,
  `GetFirstLocalPlayerController()`).
* Every method is a pure function returning an `Outcome`: the state after the
  call, the ordered list of calls made on the collaborators (`Event`), and a
  fault when the method runs into a failed engine `check` (dereferencing an
  invalid `TSharedPtr`, indexing a `TArray` out of range).
* The two synchronous backend queries (`GetNamedSession`,
  `GetResolvedConnectString`) are answered by the `IOnlineSession` record and
  are logged in the trace as queries; the four asynchronous requests
  (`DestroySession`, `CreateSession`, `FindSessions`, `JoinSession`) are logged
  as requests.
-/

namespace PuzzlePlatforms

/-! ## Engine value types -/

/-- Engine name type `FName`. -/
abbrev FName := String

/-- Engine string type `FString`. -/
abbrev FString := String

/-- The constant `SESSION_NAME` of the source file. -/
def SESSION_NAME : FName := "My Session Game"

/-- Handle to an engine object reached through a raw pointer; a null pointer is
`none` in an `Option UObjectRef`. -/
structure UObjectRef where
  addr : Nat
deriving DecidableEq, Repr

/-- The fields of `FOnlineSessionSettings` the source assigns; a default
constructed value has them all cleared. -/
structure FOnlineSessionSettings where
  bIsLANMatch : Bool := false
  NumPublicConnections : Int := 0
  bShouldAdvertise : Bool := false
deriving DecidableEq, Repr

/-- One record of a search: `SessionIdStr` is what `GetSessionIdStr()` returns,
`Session` stands for the connection data the backend keeps with it. -/
structure FOnlineSessionSearchResult where
  SessionIdStr : FString
  Session : Nat
deriving DecidableEq, Repr

/-- The accessor `FOnlineSessionSearchResult::GetSessionIdStr`. -/
def FOnlineSessionSearchResult.GetSessionIdStr (r : FOnlineSessionSearchResult) : FString :=
  r.SessionIdStr

/-- Engine array `TArray`: its element count is an `int32`. -/
structure TArray (α : Type) where
  elems : List α
  num_lt : elems.length < 2 ^ 31

/-- The empty array. -/
def TArray.empty {α : Type} : TArray α := ⟨[], by simp⟩

/-- Element count `TArray::Num`. -/
def TArray.Num {α : Type} (a : TArray α) : Int := a.elems.length

/-- A `uint32` argument: the value modulo `2 ^ 32`. -/
def toUInt32 (n : Nat) : Nat := n % 2 ^ 32

/-- Implicit conversion of a `uint32` to the `int32` index type of `TArray`. -/
def toInt32 (u : Nat) : Int :=
  if toUInt32 u < 2 ^ 31 then (toUInt32 u : Int) else (toUInt32 u : Int) - 2 ^ 32

/-- Indexing `TArray::operator[]` with its `RangeCheck`: `none` when the range
check `(Index >= 0) & (Index < ArrayNum)` fails. -/
def TArray.index {α : Type} (a : TArray α) (Index : Int) : Option α :=
  if 0 ≤ Index ∧ Index < a.Num then a.elems[Index.toNat]? else none

/-- The search object `FOnlineSessionSearch`; a new one has no results. -/
structure FOnlineSessionSearch where
  SearchResults : TArray FOnlineSessionSearchResult := TArray.empty

/-- The session backend `IOnlineSession` as the coordinator queries it:
`GetNamedSession` answers with the existing session (if any) and
`GetResolvedConnectString` with the address it wrote (if it returned true). -/
structure IOnlineSession where
  GetNamedSession : FName → Option UObjectRef
  GetResolvedConnectString : FName → Option FString

/-- Values of `EOnJoinSessionCompleteResult::Type`. -/
inductive EOnJoinSessionCompleteResult where
  | Success
  | SessionIsFull
  | SessionDoesNotExist
  | CouldNotRetrieveAddress
  | AlreadyInSession
  | UnknownError
deriving DecidableEq, Repr

/-- Values of `ETravelType`. -/
inductive ETravelType where
  | TRAVEL_Absolute
  | TRAVEL_Partial
  | TRAVEL_Relative
deriving DecidableEq, Repr

/-- Log verbosities used by the source. -/
inductive ELogVerbosity where
  | Warning
  | Error
deriving DecidableEq, Repr

/-- Colours used by the source. -/
inductive FColor where
  | Green
deriving DecidableEq, Repr

/-! ## Observable calls -/

/-- A call made by the game instance on one of its collaborators. -/
inductive Event where
  /-- Call `UE_LOG(LogTemp, verbosity, msg)` -/
  | Log (verbosity : ELogVerbosity) (msg : FString)
  /-- An `ensure(expr)` that evaluated to false -/
  | EnsureFailed (expr : String)
  /-- Call `SessionInterface->GetNamedSession(name)` -/
  | GetNamedSession (name : FName)
  /-- Call `SessionInterface->GetResolvedConnectString(name, Address)` -/
  | GetResolvedConnectString (name : FName)
  /-- Call `SessionInterface->DestroySession(name)` -/
  | DestroySession (name : FName)
  /-- Call `SessionInterface->CreateSession(HostingPlayerNum, name, settings)` -/
  | CreateSession (HostingPlayerNum : Int) (name : FName) (settings : FOnlineSessionSettings)
  /-- Call `SessionInterface->FindSessions(SearchingPlayerNum, SessionSearch.ToSharedRef())` -/
  | FindSessions (SearchingPlayerNum : Int)
  /-- Call `SessionInterface->JoinSession(PlayerNum, name, DesiredSession)` -/
  | JoinSession (PlayerNum : Int) (name : FName) (DesiredSession : FOnlineSessionSearchResult)
  /-- Call `Menu->Teardown()` -/
  | Teardown
  /-- Call `Menu->SetServerList(ServerNames)` -/
  | SetServerList (ServerNames : List FString)
  /-- Call `Engine->AddOnScreenDebugMessage(Key, TimeToDisplay, DisplayColor, msg)` -/
  | AddOnScreenDebugMessage (Key : Int) (TimeToDisplay : Nat) (DisplayColor : FColor) (msg : FString)
  /-- Call `World->ServerTravel(URL)` -/
  | ServerTravel (URL : FString)
  /-- Call `PlayerController->ClientTravel(URL, TravelType)` -/
  | ClientTravel (URL : FString) (TravelType : ETravelType)
deriving DecidableEq, Repr

/-- An asynchronous request to the session backend. -/
def Event.isBackendRequest : Event → Bool
  | .DestroySession _ => true
  | .CreateSession _ _ _ => true
  | .FindSessions _ => true
  | .JoinSession _ _ _ => true
  | _ => false

/-- Any use of the session backend: a request or a synchronous query. -/
def Event.isBackendCall : Event → Bool
  | .GetNamedSession _ => true
  | .GetResolvedConnectString _ => true
  | e => e.isBackendRequest

/-- A call on the menu widget. -/
def Event.isMenuCall : Event → Bool
  | .Teardown => true
  | .SetServerList _ => true
  | _ => false

/-- A map-travel call. -/
def Event.isTravelCall : Event → Bool
  | .ServerTravel _ => true
  | .ClientTravel _ _ => true
  | _ => false

/-- A `CreateSession` request. -/
def Event.isCreateSession : Event → Bool
  | .CreateSession _ _ _ => true
  | _ => false

/-- A `JoinSession` request. -/
def Event.isJoinSession : Event → Bool
  | .JoinSession _ _ _ => true
  | _ => false

/-- A `SetServerList` call. -/
def Event.isSetServerList : Event → Bool
  | .SetServerList _ => true
  | _ => false

/-- A `ClientTravel` call. -/
def Event.isClientTravel : Event → Bool
  | .ClientTravel _ _ => true
  | _ => false

/-- An on-screen debug message. -/
def Event.isDebugMessage : Event → Bool
  | .AddOnScreenDebugMessage _ _ _ _ => true
  | _ => false

/-! ## The game instance -/

/-- A failed engine `check`, which stops the method where it stands. -/
inductive Fault where
  /-- Dereference of an invalid `SessionInterface` -/
  | NullSessionInterface
  /-- Index of `TArray::operator[]` out of range -/
  | RangeCheck
deriving DecidableEq, Repr

end PuzzlePlatforms

/-- The members of the game instance the session code reads and writes, and the
engine objects it obtains from `GetEngine()`, `GetWorld()` and
`GetFirstLocalPlayerController()`. -/
structure UPuzzlePlatformsGameInstance where
  SessionInterface : Option PuzzlePlatforms.IOnlineSession
  SessionSearch : Option PuzzlePlatforms.FOnlineSessionSearch
  Menu : Option PuzzlePlatforms.UObjectRef
  Engine : Option PuzzlePlatforms.UObjectRef
  World : Option PuzzlePlatforms.UObjectRef
  FirstLocalPlayerController : Option PuzzlePlatforms.UObjectRef

namespace PuzzlePlatforms

/-- What one method call does: the state it leaves, the calls it made in
order, and the fault that stopped it (if any). -/
structure Outcome where
  state : UPuzzlePlatformsGameInstance
  trace : List Event
  fault : Option Fault

/-- A call that returns at once: nothing called, nothing changed. -/
def Outcome.noop (c : UPuzzlePlatformsGameInstance) : Outcome := ⟨c, [], none⟩

/-- Destination of the server travel, without its option string. -/
def HOST_MAP : FString := "/Game/ThirdPersonCPP/Maps/ThirdPersonExampleMap"

end PuzzlePlatforms

namespace UPuzzlePlatformsGameInstance

open PuzzlePlatforms

/-- Source `UPuzzlePlatformsGameInstance::CreateSession`. -/
def CreateSession (c : UPuzzlePlatformsGameInstance) : Outcome :=
  match c.SessionInterface with
  | some _ =>
    let SessionSettings : FOnlineSessionSettings := {}
    let SessionSettings := { SessionSettings with bIsLANMatch := true }
    let SessionSettings := { SessionSettings with NumPublicConnections := 2 }
    let SessionSettings := { SessionSettings with bShouldAdvertise := true }
    ⟨c, [Event.CreateSession 0 SESSION_NAME SessionSettings], none⟩
  | none => ⟨c, [], none⟩

/-- Source `UPuzzlePlatformsGameInstance::Host`. -/
def Host (c : UPuzzlePlatformsGameInstance) : Outcome :=
  match c.SessionInterface with
  | some si =>
    match si.GetNamedSession SESSION_NAME with
    | some _ =>
      ⟨c, [Event.GetNamedSession SESSION_NAME, Event.DestroySession SESSION_NAME], none⟩
    | none =>
      let r := CreateSession c
      ⟨r.state, Event.GetNamedSession SESSION_NAME :: r.trace, r.fault⟩
  | none => ⟨c, [], none⟩

/-- Source `UPuzzlePlatformsGameInstance::OnCreateSessionComplete`. -/
def OnCreateSessionComplete (c : UPuzzlePlatformsGameInstance) (SessionName : FName)
    (Success : Bool) : Outcome :=
  if !Success then
    ⟨c, [Event.Log .Warning "Could not Create session"], none⟩
  else
    let t1 : List Event :=
      match c.Menu with
      | some _ => [Event.Teardown]
      | none => []
    match c.Engine with
    | none => ⟨c, t1 ++ [Event.EnsureFailed "Engine != nullptr"], none⟩
    | some _ =>
      let t2 := t1 ++ [Event.AddOnScreenDebugMessage 0 2 .Green "Hosting"]
      match c.World with
      | none => ⟨c, t2 ++ [Event.EnsureFailed "World != nullptr"], none⟩
      | some _ =>
        ⟨c, t2 ++ [Event.ServerTravel "/Game/ThirdPersonCPP/Maps/ThirdPersonExampleMap?listen"],
          none⟩

/-- Source `UPuzzlePlatformsGameInstance::RefreshServerList`. The member
`SessionInterface` is dereferenced without a validity test. -/
def RefreshServerList (c : UPuzzlePlatformsGameInstance) : Outcome :=
  let c1 : UPuzzlePlatformsGameInstance := { c with SessionSearch := some {} }
  match c1.SessionSearch with
  | some _ =>
    let t1 := [Event.Log .Warning "Starting Find Session"]
    match c1.SessionInterface with
    | some _ => ⟨c1, t1 ++ [Event.FindSessions 0], none⟩
    | none => ⟨c1, t1, some Fault.NullSessionInterface⟩
  | none => ⟨c1, [], none⟩

/-- One pass of the range-for loop of `OnFindSessionComplete`: log the id and
`Add` it to `ServerNames`. -/
def OnFindSessionComplete.step (acc : List FString × List Event)
    (SearchResult : FOnlineSessionSearchResult) : List FString × List Event :=
  (acc.1 ++ [SearchResult.GetSessionIdStr],
   acc.2 ++ [Event.Log .Error ("Found Session: " ++ SearchResult.GetSessionIdStr)])

/-- Source `UPuzzlePlatformsGameInstance::OnFindSessionComplete`. -/
def OnFindSessionComplete (c : UPuzzlePlatformsGameInstance) (Success : Bool) : Outcome :=
  match Success, c.SessionSearch, c.Menu with
  | true, some search, some _ =>
    let t1 := [Event.Log .Warning "Finished Find Session"]
    let loop := search.SearchResults.elems.foldl OnFindSessionComplete.step ([], t1)
    ⟨c, loop.2 ++ [Event.SetServerList loop.1], none⟩
  | _, _, _ => ⟨c, [], none⟩

/-- Source `UPuzzlePlatformsGameInstance::OnDestroySessionComplete`. -/
def OnDestroySessionComplete (c : UPuzzlePlatformsGameInstance) (SessionName : FName)
    (Success : Bool) : Outcome :=
  if Success then CreateSession c else ⟨c, [], none⟩

/-- Source `UPuzzlePlatformsGameInstance::Join`. -/
def Join (c : UPuzzlePlatformsGameInstance) (Index : Nat) : Outcome :=
  match c.SessionInterface with
  | none => ⟨c, [], none⟩
  | some _ =>
    match c.SessionSearch with
    | none => ⟨c, [], none⟩
    | some search =>
      let t1 : List Event :=
        match c.Menu with
        | some _ => [Event.Teardown]
        | none => []
      match search.SearchResults.index (toInt32 Index) with
      | some DesiredSession =>
        ⟨c, t1 ++ [Event.JoinSession 0 SESSION_NAME DesiredSession], none⟩
      | none => ⟨c, t1, some Fault.RangeCheck⟩

/-- Source `UPuzzlePlatformsGameInstance::OnJoinSessionComplete`. -/
def OnJoinSessionComplete (c : UPuzzlePlatformsGameInstance) (SessionName : FName)
    (Result : EOnJoinSessionCompleteResult) : Outcome :=
  match c.SessionInterface with
  | none => ⟨c, [], none⟩
  | some si =>
    let t1 := [Event.GetResolvedConnectString SessionName]
    match si.GetResolvedConnectString SessionName with
    | none => ⟨c, t1 ++ [Event.Log .Warning "Could not get connect String."], none⟩
    | some Address =>
      match c.Engine with
      | none => ⟨c, t1 ++ [Event.EnsureFailed "Engine != nullptr"], none⟩
      | some _ =>
        let t2 := t1 ++ [Event.AddOnScreenDebugMessage 0 5 .Green ("Joining " ++ Address)]
        match c.FirstLocalPlayerController with
        | none => ⟨c, t2 ++ [Event.EnsureFailed "PlayerController != nullptr"], none⟩
        | some _ => ⟨c, t2 ++ [Event.ClientTravel Address .TRAVEL_Absolute], none⟩

/-- The backend completing a search: it writes its results into the search
object it shares with the game instance since `FindSessions`. -/
def FindSessionsDelivers (c : UPuzzlePlatformsGameInstance)
    (results : TArray FOnlineSessionSearchResult) : UPuzzlePlatformsGameInstance :=
  match c.SessionSearch with
  | some search => { c with SessionSearch := some { search with SearchResults := results } }
  | none => c

end UPuzzlePlatformsGameInstance

/-! ## Sample states -/

namespace PuzzlePlatforms

/-- A backend holding no session and resolving no address. -/
def idleBackend : IOnlineSession :=
  { GetNamedSession := fun _ => none
    GetResolvedConnectString := fun _ => none }

/-- A backend holding a session under `SESSION_NAME` and resolving its address. -/
def hostingBackend : IOnlineSession :=
  { GetNamedSession := fun name => if name = SESSION_NAME then some ⟨1⟩ else none
    GetResolvedConnectString := fun name =>
      if name = SESSION_NAME then some "192.168.0.7:7777" else none }

/-- Two search results with the identifiers A and B. -/
def resultsAB : TArray FOnlineSessionSearchResult :=
  ⟨[⟨"A", 10⟩, ⟨"B", 20⟩], by simp⟩

/-- A game instance with every collaborator present: `hostingBackend`, a
completed search holding `resultsAB`, a menu, the engine, a world and a local
player controller. -/
def fullInstance : UPuzzlePlatformsGameInstance :=
  { SessionInterface := some hostingBackend
    SessionSearch := some { SearchResults := resultsAB }
    Menu := some ⟨2⟩
    Engine := some ⟨3⟩
    World := some ⟨4⟩
    FirstLocalPlayerController := some ⟨5⟩ }

/-- A game instance that found no session backend and holds nothing else. -/
def bareInstance : UPuzzlePlatformsGameInstance :=
  { SessionInterface := none
    SessionSearch := none
    Menu := none
    Engine := none
    World := none
    FirstLocalPlayerController := none }

end PuzzlePlatforms

/-! ## Properties -/

namespace UPuzzlePlatformsGameInstance

open PuzzlePlatforms

/-- C1: with a valid backend, `Host()` queries `GetNamedSession(SESSION_NAME)`
and then issues exactly one backend request and nothing else. When the query
finds no session the request is `CreateSession(0, SESSION_NAME, settings)` with
LAN-only set, two public connections and advertising set; when it finds a
session the request is `DestroySession(SESSION_NAME)` and no `CreateSession` is
issued. The state is left as it was and no fault occurs. -/
theorem C1_Host_issues_one_request (c : UPuzzlePlatformsGameInstance) (si : IOnlineSession)
    (hsi : c.SessionInterface = some si) :
    (si.GetNamedSession SESSION_NAME = none →
      (Host c).trace =
        [Event.GetNamedSession SESSION_NAME,
         Event.CreateSession 0 SESSION_NAME
           { bIsLANMatch := true, NumPublicConnections := 2, bShouldAdvertise := true }] ∧
      (Host c).trace.filter Event.isBackendRequest =
        [Event.CreateSession 0 SESSION_NAME
           { bIsLANMatch := true, NumPublicConnections := 2, bShouldAdvertise := true }]) ∧
    (si.GetNamedSession SESSION_NAME ≠ none →
      (Host c).trace =
        [Event.GetNamedSession SESSION_NAME, Event.DestroySession SESSION_NAME] ∧
      (Host c).trace.filter Event.isBackendRequest = [Event.DestroySession SESSION_NAME] ∧
      (Host c).trace.filter Event.isCreateSession = []) ∧
    ((Host c).trace.filter Event.isBackendRequest).length = 1 ∧
    (Host c).state = c ∧ (Host c).fault = none := by
  cases hq : si.GetNamedSession SESSION_NAME with
  | none => simp [Host, CreateSession, hsi, hq, Event.isBackendRequest]
  | some s => simp [Host, hsi, hq, Event.isBackendRequest, Event.isCreateSession]

/-- Witness of C1 on `fullInstance`, whose backend holds a session. -/
theorem C1_Host_issues_one_request_witness :
    fullInstance.SessionInterface = some hostingBackend ∧
    (Host fullInstance).trace.filter Event.isBackendRequest =
      [Event.DestroySession SESSION_NAME] :=
  ⟨rfl, ((C1_Host_issues_one_request fullInstance hostingBackend rfl).2.1
    (by simp [hostingBackend])).2.1⟩

/-- C2: on a game instance without a session backend, `Host`, `CreateSession`,
`Join` and `OnJoinSessionComplete` return at once (no call, no change, no
fault), but `RefreshServerList` does not test the backend: it replaces
`SessionSearch`, logs, and stops on the dereference of the invalid
`SessionInterface`. -/
theorem C2_RefreshServerList_uses_absent_backend (c : UPuzzlePlatformsGameInstance)
    (Index : Nat) (SessionName : FName) (Result : EOnJoinSessionCompleteResult) :
    Host { c with SessionInterface := none }
      = Outcome.noop { c with SessionInterface := none } ∧
    CreateSession { c with SessionInterface := none }
      = Outcome.noop { c with SessionInterface := none } ∧
    Join { c with SessionInterface := none } Index
      = Outcome.noop { c with SessionInterface := none } ∧
    OnJoinSessionComplete { c with SessionInterface := none } SessionName Result
      = Outcome.noop { c with SessionInterface := none } ∧
    (RefreshServerList { c with SessionInterface := none }).fault
      = some Fault.NullSessionInterface ∧
    (RefreshServerList { c with SessionInterface := none }).trace
      = [Event.Log .Warning "Starting Find Session"] ∧
    (RefreshServerList { c with SessionInterface := none }).state.SessionSearch.isSome = true ∧
    RefreshServerList { c with SessionInterface := none }
      ≠ Outcome.noop { c with SessionInterface := none } := by
  refine ⟨rfl, rfl, rfl, rfl, rfl, rfl, rfl, ?_⟩
  intro h
  have hf := congrArg Outcome.fault h
  simp [RefreshServerList, Outcome.noop] at hf

/-- C3 fails for states without a menu, an engine or a world: with no menu
attached `OnCreateSessionComplete(name, true)` makes no `Teardown()` call, and
with no engine or no world it makes no `ServerTravel` call. -/
theorem C3_counterexample_missing_collaborator :
    (OnCreateSessionComplete { fullInstance with Menu := none } SESSION_NAME true).trace.count
        Event.Teardown = 0 ∧
    (OnCreateSessionComplete { fullInstance with Engine := none } SESSION_NAME true).trace.filter
        Event.isTravelCall = [] ∧
    (OnCreateSessionComplete { fullInstance with World := none } SESSION_NAME true).trace.filter
        Event.isTravelCall = [] := by
  refine ⟨?_, ?_, ?_⟩ <;> decide

/-- C3 as amended: `OnCreateSessionComplete(name, true)` calls `Teardown()`
exactly once when a menu is attached and not at all otherwise; it calls
`ServerTravel` exactly once, to the fixed map path with the listen option, when
the engine and the world are available, and makes no travel call otherwise.
When engine and world are available the calls are, in order, the `Teardown()`
(if a menu is attached), the on-screen message and the `ServerTravel`. -/
theorem C3_OnCreateSessionComplete_success (c : UPuzzlePlatformsGameInstance)
    (SessionName : FName) :
    (OnCreateSessionComplete c SessionName true).trace.filter Event.isMenuCall
      = (if c.Menu.isSome then [Event.Teardown] else []) ∧
    (OnCreateSessionComplete c SessionName true).trace.filter Event.isTravelCall
      = (if c.Engine.isSome ∧ c.World.isSome
          then [Event.ServerTravel (HOST_MAP ++ "?listen")] else []) ∧
    (c.Engine ≠ none → c.World ≠ none →
      (OnCreateSessionComplete c SessionName true).trace
        = (if c.Menu.isSome then [Event.Teardown] else []) ++
          [Event.AddOnScreenDebugMessage 0 2 .Green "Hosting",
           Event.ServerTravel (HOST_MAP ++ "?listen")]) ∧
    (OnCreateSessionComplete c SessionName true).state = c ∧
    (OnCreateSessionComplete c SessionName true).fault = none := by
  have hurl : HOST_MAP ++ "?listen" = "/Game/ThirdPersonCPP/Maps/ThirdPersonExampleMap?listen" := by
    decide
  rw [hurl]
  obtain ⟨si, ss, menu, engine, world, pc⟩ := c
  cases menu <;> cases engine <;> cases world <;>
    simp [OnCreateSessionComplete, Event.isMenuCall, Event.isTravelCall]

/-- Witness of C3 on `fullInstance`: one `Teardown()`, then the message, then
one `ServerTravel`. -/
theorem C3_OnCreateSessionComplete_success_witness :
    fullInstance.Engine ≠ none ∧ fullInstance.World ≠ none ∧
    (OnCreateSessionComplete fullInstance SESSION_NAME true).trace
      = (if fullInstance.Menu.isSome then [Event.Teardown] else []) ++
        [Event.AddOnScreenDebugMessage 0 2 .Green "Hosting",
         Event.ServerTravel (HOST_MAP ++ "?listen")] :=
  ⟨by simp [fullInstance], by simp [fullInstance],
   (C3_OnCreateSessionComplete_success fullInstance SESSION_NAME).2.2.1
     (by simp [fullInstance]) (by simp [fullInstance])⟩

/-- C8: `OnCreateSessionComplete(name, false)` only logs the failure: no
`ServerTravel`, no `ClientTravel`, no `Teardown()`, no change of state. -/
theorem C8_OnCreateSessionComplete_failure (c : UPuzzlePlatformsGameInstance)
    (SessionName : FName) :
    OnCreateSessionComplete c SessionName false
      = ⟨c, [Event.Log .Warning "Could not Create session"], none⟩ ∧
    (OnCreateSessionComplete c SessionName false).trace.filter Event.isTravelCall = [] ∧
    (OnCreateSessionComplete c SessionName false).trace.filter Event.isMenuCall = [] :=
  ⟨rfl, rfl, rfl⟩

/-- An index below the element count passes the range check of
`TArray::operator[]` after its conversion from `uint32` to `int32`. -/
theorem TArray_index_of_lt {α : Type} (a : TArray α) (Index : Nat)
    (h : Index < a.elems.length) :
    a.index (toInt32 Index) = some (a.elems.get ⟨Index, h⟩) := by
  have hlt := a.num_lt
  have h32 : toUInt32 Index = Index := by
    unfold toUInt32
    exact Nat.mod_eq_of_lt (by omega)
  have hconv : toInt32 Index = (Index : Int) := by
    unfold toInt32
    rw [h32, if_pos (by omega)]
  have hnum : (Index : Int) < a.Num := by
    unfold TArray.Num
    exact_mod_cast h
  unfold TArray.index
  rw [hconv]
  simp [hnum, List.getElem?_eq_getElem h]

/-- C5 fails for states without a menu: `Join(1)` on a searched state with no
menu attached issues the `JoinSession` request with no `Teardown()` before it. -/
theorem C5_counterexample_no_menu :
    (Join { fullInstance with Menu := none } 1).trace
      = [Event.JoinSession 0 SESSION_NAME ⟨"B", 20⟩] ∧
    (Join { fullInstance with Menu := none } 1).trace.count Event.Teardown = 0 := by
  refine ⟨?_, ?_⟩ <;> decide

/-- C5 as amended: with a valid backend, a search object and an index within
the bounds of its results, `Join(Index)` issues exactly one `JoinSession`
request, with user index 0, `SESSION_NAME` and the result at position `Index`;
when a menu is attached exactly one `Teardown()` call precedes it, and when no
menu is attached there is no menu call. Nothing else is called. -/
theorem C5_Join_in_bounds (c : UPuzzlePlatformsGameInstance) (si : IOnlineSession)
    (search : FOnlineSessionSearch) (Index : Nat)
    (hsi : c.SessionInterface = some si) (hsearch : c.SessionSearch = some search)
    (hidx : Index < search.SearchResults.elems.length) :
    (Join c Index).trace
      = (if c.Menu.isSome then [Event.Teardown] else []) ++
        [Event.JoinSession 0 SESSION_NAME (search.SearchResults.elems.get ⟨Index, hidx⟩)] ∧
    (Join c Index).trace.filter Event.isBackendCall
      = [Event.JoinSession 0 SESSION_NAME (search.SearchResults.elems.get ⟨Index, hidx⟩)] ∧
    (Join c Index).trace.filter Event.isMenuCall
      = (if c.Menu.isSome then [Event.Teardown] else []) ∧
    (Join c Index).state = c ∧ (Join c Index).fault = none := by
  have hget := TArray_index_of_lt search.SearchResults Index hidx
  obtain ⟨si0, ss, menu, engine, world, pc⟩ := c
  simp only at hsi hsearch
  subst hsi hsearch
  cases menu <;>
    simp [Join, hget, Event.isBackendCall, Event.isBackendRequest, Event.isMenuCall]

/-- Witness of C5 on `fullInstance`: `Join(1)` tears the menu down once and
then asks to join the second result. -/
theorem C5_Join_in_bounds_witness :
    (Join fullInstance 1).trace
      = [Event.Teardown, Event.JoinSession 0 SESSION_NAME ⟨"B", 20⟩] :=
  (C5_Join_in_bounds fullInstance hostingBackend { SearchResults := resultsAB } 1 rfl rfl
    (by decide)).1

/-- C6: with a valid backend, `OnDestroySessionComplete(name, Success)` issues
a `CreateSession` request, exactly one and for `SESSION_NAME`, if and only if
`Success` is true, and calls nothing else; with `Success` false it calls
nothing at all, whatever the state. -/
theorem C6_OnDestroySessionComplete (c : UPuzzlePlatformsGameInstance) (si : IOnlineSession)
    (hsi : c.SessionInterface = some si) (SessionName : FName) (Success : Bool)
    (d : UPuzzlePlatformsGameInstance) :
    (OnDestroySessionComplete c SessionName Success).trace
      = (if Success then
          [Event.CreateSession 0 SESSION_NAME
            { bIsLANMatch := true, NumPublicConnections := 2, bShouldAdvertise := true }]
         else []) ∧
    (((OnDestroySessionComplete c SessionName Success).trace.filter
        Event.isCreateSession).length = 1 ↔ Success = true) ∧
    (((OnDestroySessionComplete c SessionName Success).trace.filter
        Event.isCreateSession) ≠ [] ↔ Success = true) ∧
    OnDestroySessionComplete d SessionName false = Outcome.noop d := by
  cases Success <;>
    simp [OnDestroySessionComplete, CreateSession, hsi, Event.isCreateSession, Outcome.noop]

/-- Witness of C6 on `fullInstance` with a successful destroy. -/
theorem C6_OnDestroySessionComplete_witness :
    fullInstance.SessionInterface = some hostingBackend ∧
    (OnDestroySessionComplete fullInstance SESSION_NAME true).trace
      = [Event.CreateSession 0 SESSION_NAME
          { bIsLANMatch := true, NumPublicConnections := 2, bShouldAdvertise := true }] :=
  ⟨rfl, (C6_OnDestroySessionComplete fullInstance hostingBackend rfl SESSION_NAME true
    bareInstance).1⟩

/-- C7: when `Success` is false, or no search object is held, or no menu is
attached, `OnFindSessionComplete` calls nothing (so neither `SetServerList` nor
any other menu call) and leaves the state unchanged. -/
theorem C7_OnFindSessionComplete_silent (c : UPuzzlePlatformsGameInstance) (Success : Bool)
    (h : Success = false ∨ c.SessionSearch = none ∨ c.Menu = none) :
    OnFindSessionComplete c Success = Outcome.noop c ∧
    (OnFindSessionComplete c Success).trace.filter Event.isSetServerList = [] ∧
    (OnFindSessionComplete c Success).trace.filter Event.isMenuCall = [] ∧
    (OnFindSessionComplete c Success).state = c := by
  have hnoop : OnFindSessionComplete c Success = Outcome.noop c := by
    obtain ⟨si, ss, menu, engine, world, pc⟩ := c
    rcases h with h | h | h
    · subst h
      rfl
    · simp only at h
      subst h
      cases Success <;> rfl
    · simp only at h
      subst h
      cases Success <;> cases ss <;> rfl
  rw [hnoop]
  exact ⟨rfl, rfl, rfl, rfl⟩

/-- Witness of C7: a failed search on `fullInstance` calls nothing. -/
theorem C7_OnFindSessionComplete_silent_witness :
    OnFindSessionComplete fullInstance false = Outcome.noop fullInstance :=
  (C7_OnFindSessionComplete_silent fullInstance false (Or.inl rfl)).1

/-- C9 fails when an address is resolved but the engine or the local player
controller is missing: `OnJoinSessionComplete` then makes no `ClientTravel`
call. -/
theorem C9_counterexample_missing_controller :
    hostingBackend.GetResolvedConnectString SESSION_NAME = some "192.168.0.7:7777" ∧
    (OnJoinSessionComplete { fullInstance with FirstLocalPlayerController := none }
        SESSION_NAME .Success).trace.filter Event.isClientTravel = [] ∧
    (OnJoinSessionComplete { fullInstance with Engine := none }
        SESSION_NAME .Success).trace.filter Event.isClientTravel = [] := by
  refine ⟨?_, ?_, ?_⟩ <;> decide

/-- C9 as amended: with a valid backend, for every session name and join
result, `OnJoinSessionComplete` makes no travel call when
`GetResolvedConnectString(name)` resolves no address; when it resolves an
address and the engine and the first local player controller are available, the
calls are the query, the on-screen message and exactly one `ClientTravel` to
exactly that address with `TRAVEL_Absolute`; when it resolves an address and
the engine or the controller is missing, no travel call is made. -/
theorem C9_OnJoinSessionComplete_travel (c : UPuzzlePlatformsGameInstance)
    (si : IOnlineSession) (hsi : c.SessionInterface = some si) (SessionName : FName)
    (Result : EOnJoinSessionCompleteResult) :
    (si.GetResolvedConnectString SessionName = none →
      (OnJoinSessionComplete c SessionName Result).trace.filter Event.isTravelCall = []) ∧
    (∀ Address : FString, si.GetResolvedConnectString SessionName = some Address →
      c.Engine ≠ none → c.FirstLocalPlayerController ≠ none →
      (OnJoinSessionComplete c SessionName Result).trace
        = [Event.GetResolvedConnectString SessionName,
           Event.AddOnScreenDebugMessage 0 5 .Green ("Joining " ++ Address),
           Event.ClientTravel Address .TRAVEL_Absolute] ∧
      (OnJoinSessionComplete c SessionName Result).trace.filter Event.isTravelCall
        = [Event.ClientTravel Address .TRAVEL_Absolute]) ∧
    (∀ Address : FString, si.GetResolvedConnectString SessionName = some Address →
      (c.Engine = none ∨ c.FirstLocalPlayerController = none) →
      (OnJoinSessionComplete c SessionName Result).trace.filter Event.isTravelCall = []) := by
  obtain ⟨si0, ss, menu, engine, world, pc⟩ := c
  simp only at hsi
  subst hsi
  refine ⟨?_, ?_, ?_⟩
  · intro hnone
    simp [OnJoinSessionComplete, hnone, Event.isTravelCall]
  · intro Address haddr hengine hpc
    cases engine with
    | none => exact absurd rfl hengine
    | some e =>
      cases pc with
      | none => exact absurd rfl hpc
      | some p => simp [OnJoinSessionComplete, haddr, Event.isTravelCall]
  · intro Address haddr hmissing
    cases engine <;> cases pc <;>
      simp_all [OnJoinSessionComplete, Event.isTravelCall]

/-- Witness of C9 on `fullInstance`: the address resolved for `SESSION_NAME` is
the destination of the one `ClientTravel`. -/
theorem C9_OnJoinSessionComplete_travel_witness :
    fullInstance.SessionInterface = some hostingBackend ∧
    (OnJoinSessionComplete fullInstance SESSION_NAME .Success).trace.filter Event.isTravelCall
      = [Event.ClientTravel "192.168.0.7:7777" .TRAVEL_Absolute] :=
  ⟨rfl, ((C9_OnJoinSessionComplete_travel fullInstance hostingBackend rfl SESSION_NAME
    .Success).2.1 "192.168.0.7:7777" (by decide) (by simp [fullInstance])
    (by simp [fullInstance])).2⟩

/-- C10 fails in its closing clause when the local player controller is
missing: the backend resolves a connect string for `SESSION_NAME`, yet a join
reported as `UnknownError` makes no `ClientTravel` call (nor does a successful
one). -/
theorem C10_counterexample_failed_join_without_controller :
    hostingBackend.GetResolvedConnectString SESSION_NAME ≠ none ∧
    (OnJoinSessionComplete { fullInstance with FirstLocalPlayerController := none }
        SESSION_NAME .UnknownError).trace
      = [Event.GetResolvedConnectString SESSION_NAME,
         Event.AddOnScreenDebugMessage 0 5 .Green "Joining 192.168.0.7:7777",
         Event.EnsureFailed "PlayerController != nullptr"] := by
  refine ⟨?_, ?_⟩ <;> decide

/-- C10 as amended: `OnJoinSessionComplete` does not look at its result
argument: for every state, session name and two result values the outcomes
(state, calls in order, fault) are equal, hence so are the backend,
debug-message and travel calls; so a join reported with any result, a failure
included, makes the `ClientTravel` call exactly when a successful one does, and
does make it whenever the backend resolves a connect string for the name and
the engine and the first local player controller are available. -/
theorem C10_OnJoinSessionComplete_ignores_result (c : UPuzzlePlatformsGameInstance)
    (SessionName : FName) (r1 r2 : EOnJoinSessionCompleteResult) :
    OnJoinSessionComplete c SessionName r1 = OnJoinSessionComplete c SessionName r2 ∧
    (OnJoinSessionComplete c SessionName r1).trace.filter Event.isBackendCall
      = (OnJoinSessionComplete c SessionName r2).trace.filter Event.isBackendCall ∧
    (OnJoinSessionComplete c SessionName r1).trace.filter Event.isDebugMessage
      = (OnJoinSessionComplete c SessionName r2).trace.filter Event.isDebugMessage ∧
    (OnJoinSessionComplete c SessionName r1).trace.filter Event.isTravelCall
      = (OnJoinSessionComplete c SessionName r2).trace.filter Event.isTravelCall ∧
    (∀ Address : FString,
      Event.ClientTravel Address .TRAVEL_Absolute ∈
          (OnJoinSessionComplete c SessionName .Success).trace →
      Event.ClientTravel Address .TRAVEL_Absolute ∈
          (OnJoinSessionComplete c SessionName r1).trace) ∧
    (∀ (si : IOnlineSession) (Address : FString), c.SessionInterface = some si →
      si.GetResolvedConnectString SessionName = some Address →
      c.Engine ≠ none → c.FirstLocalPlayerController ≠ none →
      Event.ClientTravel Address .TRAVEL_Absolute ∈
          (OnJoinSessionComplete c SessionName r1).trace) := by
  have heq : ∀ a b : EOnJoinSessionCompleteResult,
      OnJoinSessionComplete c SessionName a = OnJoinSessionComplete c SessionName b :=
    fun _ _ => rfl
  refine ⟨heq r1 r2, by rw [heq r1 r2], by rw [heq r1 r2], by rw [heq r1 r2], ?_, ?_⟩
  · intro Address h
    rw [heq r1 .Success]
    exact h
  · intro si Address hsi haddr hengine hpc
    obtain ⟨si0, ss, menu, engine, world, pc⟩ := c
    simp only at hsi
    subst hsi
    cases engine with
    | none => exact absurd rfl hengine
    | some e =>
      cases pc with
      | none => exact absurd rfl hpc
      | some p => simp [OnJoinSessionComplete, haddr]

/-- Witness of C10 on `fullInstance`: a join reported as `UnknownError` makes
the same calls as a successful one and still travels to the resolved address. -/
theorem C10_OnJoinSessionComplete_ignores_result_witness :
    OnJoinSessionComplete fullInstance SESSION_NAME .UnknownError
      = OnJoinSessionComplete fullInstance SESSION_NAME .Success ∧
    Event.ClientTravel "192.168.0.7:7777" .TRAVEL_Absolute ∈
      (OnJoinSessionComplete fullInstance SESSION_NAME .UnknownError).trace :=
  ⟨(C10_OnJoinSessionComplete_ignores_result fullInstance SESSION_NAME .UnknownError
      .Success).1,
   (C10_OnJoinSessionComplete_ignores_result fullInstance SESSION_NAME .UnknownError
      .Success).2.2.2.2.2 hostingBackend "192.168.0.7:7777" rfl (by decide)
      (by simp [fullInstance]) (by simp [fullInstance])⟩

/-- The range-for loop of `OnFindSessionComplete` appends, in order, one id per
result to `ServerNames` and one log line per result to the trace. -/
theorem OnFindSessionComplete_loop (rs : List FOnlineSessionSearchResult)
    (acc : List FString × List Event) :
    rs.foldl OnFindSessionComplete.step acc
      = (acc.1 ++ rs.map FOnlineSessionSearchResult.GetSessionIdStr,
         acc.2 ++ rs.map (fun r => Event.Log .Error ("Found Session: " ++ r.GetSessionIdStr))) := by
  induction rs generalizing acc with
  | nil => simp
  | cons r rs ih => simp [List.foldl_cons, ih, OnFindSessionComplete.step]

/-- C4: with a valid backend and a menu attached, `RefreshServerList()`, the
backend delivering any list of results, and `OnFindSessionComplete(true)`
together make exactly one menu call, `SetServerList`, whose argument is the
list of the results' `GetSessionIdStr()` values in the backend's order: it has
the length of the result list and holds at each position `k` the id of result
`k`, duplicates kept. The callback's calls are the log lines and then that
`SetServerList`; neither step faults. -/
theorem C4_RefreshServerList_then_OnFindSessionComplete (c : UPuzzlePlatformsGameInstance)
    (si : IOnlineSession) (hsi : c.SessionInterface = some si) (hmenu : c.Menu ≠ none)
    (results : TArray FOnlineSessionSearchResult) :
    ((RefreshServerList c).trace ++
        (OnFindSessionComplete (FindSessionsDelivers (RefreshServerList c).state results)
          true).trace).filter Event.isMenuCall
      = [Event.SetServerList (results.elems.map FOnlineSessionSearchResult.GetSessionIdStr)] ∧
    (OnFindSessionComplete (FindSessionsDelivers (RefreshServerList c).state results) true).trace
      = [Event.Log .Warning "Finished Find Session"] ++
        results.elems.map (fun r => Event.Log .Error ("Found Session: " ++ r.GetSessionIdStr)) ++
        [Event.SetServerList (results.elems.map FOnlineSessionSearchResult.GetSessionIdStr)] ∧
    (results.elems.map FOnlineSessionSearchResult.GetSessionIdStr).length
      = results.elems.length ∧
    (∀ (k : Nat) (hk : k < results.elems.length),
      (results.elems.map FOnlineSessionSearchResult.GetSessionIdStr)[k]?
        = some (results.elems.get ⟨k, hk⟩).GetSessionIdStr) ∧
    (RefreshServerList c).trace
      = [Event.Log .Warning "Starting Find Session", Event.FindSessions 0] ∧
    (RefreshServerList c).fault = none ∧
    (OnFindSessionComplete (FindSessionsDelivers (RefreshServerList c).state results)
      true).fault = none := by
  obtain ⟨si0, ss, menu, engine, world, pc⟩ := c
  simp only at hsi
  subst hsi
  cases menu with
  | none => exact absurd rfl hmenu
  | some m =>
    have hfilter : ∀ l : List FOnlineSessionSearchResult,
        (l.map (fun r => Event.Log .Error ("Found Session: " ++ r.GetSessionIdStr))).filter
          Event.isMenuCall = [] := by
      intro l
      induction l with
      | nil => rfl
      | cons r l ih => simp [List.filter_cons, Event.isMenuCall]
    refine ⟨?_, ?_, ?_, ?_, rfl, rfl, rfl⟩
    · simp only [RefreshServerList, FindSessionsDelivers, OnFindSessionComplete,
        OnFindSessionComplete_loop, List.filter_append, hfilter]
      simp [Event.isMenuCall]
    · simp only [RefreshServerList, FindSessionsDelivers, OnFindSessionComplete,
        OnFindSessionComplete_loop]
      simp
    · simp
    · intro k hk
      simp [List.getElem?_eq_getElem hk]

/-- Witness of C4 on the results with identifiers A and B: the one menu call is
`SetServerList` with A then B. -/
theorem C4_RefreshServerList_then_OnFindSessionComplete_witness :
    fullInstance.SessionInterface = some hostingBackend ∧ fullInstance.Menu ≠ none ∧
    ((RefreshServerList fullInstance).trace ++
        (OnFindSessionComplete (FindSessionsDelivers (RefreshServerList fullInstance).state
          resultsAB) true).trace).filter Event.isMenuCall
      = [Event.SetServerList ["A", "B"]] :=
  ⟨rfl, by simp [fullInstance],
   (C4_RefreshServerList_then_OnFindSessionComplete fullInstance hostingBackend rfl
     (by simp [fullInstance]) resultsAB).1⟩

end UPuzzlePlatformsGameInstance
